import Mathlib

/-!
Shallow embedding of `src/layout/top_bar.rs` (the `TopBar` widget of the
niri fork): layout constants, the `TopBar` state, `new`, `update`,
`hit_test` and `render`, together with theorems checking the
natural-language specification against them.

Coordinates, sizes and colors are `f64` in the source; they are embedded
as `ℚ`.  Every constant appearing in the source (24.0, 18.0, 4.0, 6.0,
0.2, 0.9, ...) is an exactly representable dyadic rational and every
operation performed on them by the code (addition, subtraction, halving)
is exact in `f64` on these values, so `ℚ` is a faithful model of the
arithmetic the claims are about.
-/

namespace NiriTopBar

/-- `TOP_BAR_HEIGHT`: the height of the top bar in logical pixels. -/
def TOP_BAR_HEIGHT : ℚ := 24

/-- `BUTTON_SIZE`: the size of buttons in the top bar. -/
def BUTTON_SIZE : ℚ := 18

/-- `BUTTON_SPACING`: the spacing between buttons. -/
def BUTTON_SPACING : ℚ := 4

/-- `EDGE_PADDING`: the padding from the right/left edge. -/
def EDGE_PADDING : ℚ := 6

/-- Button index `BUTTON_SCREENSHOT = 0`. -/
def BUTTON_SCREENSHOT : Fin 5 := 0

/-- Button index `BUTTON_PRESET_WIDTH = 1`. -/
def BUTTON_PRESET_WIDTH : Fin 5 := 1

/-- Button index `BUTTON_CLOSE = 2`. -/
def BUTTON_CLOSE : Fin 5 := 2

/-- Button index `BUTTON_MINIMIZE = 3`. -/
def BUTTON_MINIMIZE : Fin 5 := 3

/-- Button index `BUTTON_MAXIMIZE = 4`. -/
def BUTTON_MAXIMIZE : Fin 5 := 4

/-- A point in logical coordinates (`smithay::utils::Point<f64, Logical>`). -/
structure Point where
  x : ℚ
  y : ℚ
deriving DecidableEq, Repr

instance : Add Point := ⟨fun p q => ⟨p.x + q.x, p.y + q.y⟩⟩

/-- `Point` addition is componentwise. -/
theorem Point.add_def (p q : Point) : p + q = ⟨p.x + q.x, p.y + q.y⟩ := rfl

/-- A size in logical coordinates (`smithay::utils::Size<f64, Logical>`). -/
structure Size where
  w : ℚ
  h : ℚ
deriving DecidableEq, Repr

/-- `Size::default()` is zero in both components. -/
def Size.default : Size := ⟨0, 0⟩

/-- A rectangle (`smithay::utils::Rectangle<f64, Logical>`): a location and a size. -/
structure Rect where
  loc : Point
  size : Size
deriving DecidableEq, Repr

/-- `Rectangle::contains` from smithay: half-open containment, the point
is inside when `loc ≤ p` componentwise and `p < loc + size` componentwise. -/
def Rect.contains (r : Rect) (p : Point) : Bool :=
  decide (r.loc.x ≤ p.x ∧ p.x < r.loc.x + r.size.w ∧
          r.loc.y ≤ p.y ∧ p.y < r.loc.y + r.size.h)

/-- An RGBA color value (a `[f32; 4]` or `niri_config::Color` payload). -/
structure Rgba where
  r : ℚ
  g : ℚ
  b : ℚ
  a : ℚ
deriving DecidableEq, Repr

/-- Modelled from the spec: the drawable solid-color buffer
(`crate::render_helpers::solid_color::SolidColorBuffer`, which lives in
this repository outside the examined file).  Per spec section 6 it owns
pixel storage and exposes `resize(size)` and `set_color(rgba)`; the
observable state the claims mention is its size and its color. -/
structure SolidColorBuffer where
  size : Size
  color : Rgba
deriving DecidableEq, Repr

/-- Modelled from the spec: `SolidColorBuffer::new(size, color)`. -/
def SolidColorBuffer.new (size : Size) (color : Rgba) : SolidColorBuffer :=
  ⟨size, color⟩

/-- Modelled from the spec: `SolidColorBuffer::resize(size)`. -/
def SolidColorBuffer.resize (buf : SolidColorBuffer) (size : Size) : SolidColorBuffer :=
  { buf with size := size }

/-- Modelled from the spec: `SolidColorBuffer::set_color(color)`. -/
def SolidColorBuffer.set_color (buf : SolidColorBuffer) (color : Rgba) : SolidColorBuffer :=
  { buf with color := color }

/-- Modelled from the spec: the drawable primitive emitted by `render`
(`SolidColorRenderElement::from_buffer(buffer, location, alpha, kind)`):
a positioned, sized, colored rectangle with an opacity (spec sections
4.3 and 6; the draw-kind hint is the constant `Kind::Unspecified` and is
omitted). -/
structure DrawPrimitive where
  position : Point
  size : Size
  color : Rgba
  opacity : ℚ
deriving DecidableEq, Repr

/-- Modelled from the spec: `SolidColorRenderElement::from_buffer`
takes the size and color from the buffer and the position and opacity
from its arguments. -/
def from_buffer (buf : SolidColorBuffer) (location : Point) (alpha : ℚ) : DrawPrimitive :=
  ⟨location, buf.size, buf.color, alpha⟩

/-- The `TopBar` struct: background buffer, five button buffers, the
cached bar size, the five cached button locations, and the button color
table set at construction. -/
structure TopBar where
  background_buffer : SolidColorBuffer
  button_buffers : Fin 5 → SolidColorBuffer
  size : Size
  button_locations : Fin 5 → Point
  button_colors : Fin 5 → Rgba

/-- The background color literal `[0.2, 0.2, 0.2, 0.9]` used by `new` and `update`. -/
def background_color : Rgba := ⟨0.2, 0.2, 0.2, 0.9⟩

/-- The per-button color literals used by `new` (as `Color::new_unpremul`)
and re-assigned by `update` (as raw `[f32; 4]` arrays); the two tables
hold the same five values. -/
def button_color_table : Fin 5 → Rgba :=
  ![⟨0.2, 0.6, 1.0, 1.0⟩,   -- Screenshot - Bright blue
    ⟨0.4, 0.8, 1.0, 1.0⟩,   -- Preset Column Width - Light blue
    ⟨1.0, 0.3, 0.3, 1.0⟩,   -- Close - Red
    ⟨1.0, 0.7, 0.2, 1.0⟩,   -- Minimize - Orange
    ⟨0.3, 0.8, 0.3, 1.0⟩]   -- Maximize - Green

/-- `TopBar::new()`: button buffers at `BUTTON_SIZE × BUTTON_SIZE` with
the color table, background buffer at `Size::default()`, size and button
locations defaulted to zero. -/
def TopBar.new : TopBar :=
  { background_buffer := SolidColorBuffer.new Size.default background_color
    button_buffers := fun i =>
      SolidColorBuffer.new ⟨BUTTON_SIZE, BUTTON_SIZE⟩ (button_color_table i)
    size := Size.default
    button_locations := fun _ => ⟨0, 0⟩
    button_colors := button_color_table }

/-- `TopBar::update(win_size)`.  The bar size becomes
`(win_size.w, TOP_BAR_HEIGHT)`; the background buffer is resized and
recolored; the Screenshot button is placed at `EDGE_PADDING`; the loop
`for i in (BUTTON_CLOSE..=BUTTON_MAXIMIZE).rev()` walks a `right_offset`
cursor from `win_size.w - EDGE_PADDING` leftwards, subtracting
`BUTTON_SIZE` before each placement and `BUTTON_SPACING` after it
(unrolled here for `i = 4, 3, 2`); the PresetWidth button then takes one
more `BUTTON_SIZE` off the cursor; finally every button buffer is
resized to `BUTTON_SIZE × BUTTON_SIZE` and recolored from the literal
table.  The `button_colors` field is not touched. -/
def TopBar.update (bar : TopBar) (win_size : Size) : TopBar :=
  let size : Size := ⟨win_size.w, TOP_BAR_HEIGHT⟩
  let background_buffer :=
    (bar.background_buffer.resize size).set_color background_color
  let button_y : ℚ := (TOP_BAR_HEIGHT - BUTTON_SIZE) / 2
  let r0 : ℚ := win_size.w - EDGE_PADDING
  -- loop iteration i = 4 (BUTTON_MAXIMIZE)
  let r1 : ℚ := r0 - BUTTON_SIZE
  let maximize_loc : Point := ⟨r1, button_y⟩
  let r2 : ℚ := r1 - BUTTON_SPACING
  -- loop iteration i = 3 (BUTTON_MINIMIZE)
  let r3 : ℚ := r2 - BUTTON_SIZE
  let minimize_loc : Point := ⟨r3, button_y⟩
  let r4 : ℚ := r3 - BUTTON_SPACING
  -- loop iteration i = 2 (BUTTON_CLOSE)
  let r5 : ℚ := r4 - BUTTON_SIZE
  let close_loc : Point := ⟨r5, button_y⟩
  let r6 : ℚ := r5 - BUTTON_SPACING
  -- preset column width button, to the left of the window control buttons
  let r7 : ℚ := r6 - BUTTON_SIZE
  let preset_loc : Point := ⟨r7, button_y⟩
  let button_locations : Fin 5 → Point :=
    ![⟨EDGE_PADDING, button_y⟩, preset_loc, close_loc, minimize_loc, maximize_loc]
  let button_size : Size := ⟨BUTTON_SIZE, BUTTON_SIZE⟩
  let button_buffers : Fin 5 → SolidColorBuffer := fun i =>
    ((bar.button_buffers i).resize button_size).set_color (button_color_table i)
  { background_buffer := background_buffer
    button_buffers := button_buffers
    size := size
    button_locations := button_locations
    button_colors := bar.button_colors }

/-- The rectangle `hit_test` builds for button `i`:
`Rectangle::new(*loc, Size::from((BUTTON_SIZE, BUTTON_SIZE)))`. -/
def TopBar.buttonRect (bar : TopBar) (i : Fin 5) : Rect :=
  ⟨bar.button_locations i, ⟨BUTTON_SIZE, BUTTON_SIZE⟩⟩

/-- `TopBar::hit_test(point)`: `None` when `point.y < 0.0` or
`point.y > TOP_BAR_HEIGHT`; otherwise the first button index (in
ascending order, as by `iter().enumerate()`) whose rectangle contains
the point, else `None`. -/
def TopBar.hit_test (bar : TopBar) (point : Point) : Option (Fin 5) :=
  if point.y < 0 ∨ point.y > TOP_BAR_HEIGHT then
    none
  else
    (List.finRange 5).find? (fun i => (bar.buttonRect i).contains point)

/-- `TopBar::render(renderer, location)`: the background primitive from
the background buffer at `location` with alpha `1.0`, followed by one
primitive per button buffer at `location + button_locations[i]` with
alpha `1.0`, in index order.  The renderer argument is threaded through
unused in the source and omitted here. -/
def TopBar.render (bar : TopBar) (location : Point) : List DrawPrimitive :=
  from_buffer bar.background_buffer location 1 ::
    (List.finRange 5).map (fun i =>
      from_buffer (bar.button_buffers i) (location + bar.button_locations i) 1)

end NiriTopBar

namespace NiriTopBar

/-! ### Helper lemmas: characterizations of `update`, `contains`, `hit_test` -/

/-- Containment in a rectangle unfolds to the four coordinate inequalities. -/
theorem contains_iff (r : Rect) (p : Point) :
    r.contains p = true ↔
      (r.loc.x ≤ p.x ∧ p.x < r.loc.x + r.size.w ∧
       r.loc.y ≤ p.y ∧ p.y < r.loc.y + r.size.h) := by
  simp [Rect.contains]

/-- Containment in a button-sized rectangle at `(x, y)`. -/
theorem contains_char (x y : ℚ) (p : Point) :
    (Rect.contains ⟨⟨x, y⟩, ⟨BUTTON_SIZE, BUTTON_SIZE⟩⟩ p = true) ↔
      (x ≤ p.x ∧ p.x < x + 18 ∧ y ≤ p.y ∧ p.y < y + 18) := by
  simp [Rect.contains, BUTTON_SIZE]

/-- Containment in a button-sized rectangle, with the point given componentwise. -/
theorem contains_char_at (x y px py : ℚ) :
    (Rect.contains ⟨⟨x, y⟩, ⟨BUTTON_SIZE, BUTTON_SIZE⟩⟩ ⟨px, py⟩ = true) ↔
      (x ≤ px ∧ px < x + 18 ∧ y ≤ py ∧ py < y + 18) := by
  simp [Rect.contains, BUTTON_SIZE]

/-- Two button-sized rectangles whose x-intervals are separated contain no common point. -/
theorem contains_disjoint (x1 x2 y1 y2 : ℚ) (p : Point) (h : x1 + 18 ≤ x2)
    (h1 : Rect.contains ⟨⟨x1, y1⟩, ⟨BUTTON_SIZE, BUTTON_SIZE⟩⟩ p = true)
    (h2 : Rect.contains ⟨⟨x2, y2⟩, ⟨BUTTON_SIZE, BUTTON_SIZE⟩⟩ p = true) : False := by
  rw [contains_char] at h1 h2
  obtain ⟨-, a2, -, -⟩ := h1
  obtain ⟨b1, -, -, -⟩ := h2
  linarith

/-- The unrolled `update` as a single record value. -/
theorem update_def (bar : TopBar) (ws : Size) :
    bar.update ws =
      { background_buffer := ⟨⟨ws.w, TOP_BAR_HEIGHT⟩, background_color⟩
        button_buffers := fun i => ⟨⟨BUTTON_SIZE, BUTTON_SIZE⟩, button_color_table i⟩
        size := ⟨ws.w, TOP_BAR_HEIGHT⟩
        button_locations :=
          ![⟨EDGE_PADDING, (TOP_BAR_HEIGHT - BUTTON_SIZE) / 2⟩,
            ⟨ws.w - EDGE_PADDING - BUTTON_SIZE - BUTTON_SPACING - BUTTON_SIZE - BUTTON_SPACING - BUTTON_SIZE - BUTTON_SPACING - BUTTON_SIZE,
             (TOP_BAR_HEIGHT - BUTTON_SIZE) / 2⟩,
            ⟨ws.w - EDGE_PADDING - BUTTON_SIZE - BUTTON_SPACING - BUTTON_SIZE - BUTTON_SPACING - BUTTON_SIZE,
             (TOP_BAR_HEIGHT - BUTTON_SIZE) / 2⟩,
            ⟨ws.w - EDGE_PADDING - BUTTON_SIZE - BUTTON_SPACING - BUTTON_SIZE,
             (TOP_BAR_HEIGHT - BUTTON_SIZE) / 2⟩,
            ⟨ws.w - EDGE_PADDING - BUTTON_SIZE, (TOP_BAR_HEIGHT - BUTTON_SIZE) / 2⟩]
        button_colors := bar.button_colors } := rfl

/-- The five button locations after `update`, with the arithmetic normalized. -/
theorem update_button_locations (bar : TopBar) (ws : Size) :
    (bar.update ws).button_locations =
      ![⟨6, 3⟩, ⟨ws.w - 90, 3⟩, ⟨ws.w - 68, 3⟩, ⟨ws.w - 46, 3⟩, ⟨ws.w - 24, 3⟩] := by
  funext i
  fin_cases i <;>
    simp [update_def, EDGE_PADDING, BUTTON_SIZE, BUTTON_SPACING, TOP_BAR_HEIGHT,
      Point.mk.injEq] <;>
    norm_num <;>
    ring_nf

/-- Screenshot button rectangle after `update`. -/
theorem buttonRect0 (bar : TopBar) (ws : Size) :
    (bar.update ws).buttonRect 0 = ⟨⟨6, 3⟩, ⟨BUTTON_SIZE, BUTTON_SIZE⟩⟩ := by
  rw [TopBar.buttonRect, update_button_locations]
  exact rfl

/-- PresetWidth button rectangle after `update`. -/
theorem buttonRect1 (bar : TopBar) (ws : Size) :
    (bar.update ws).buttonRect 1 = ⟨⟨ws.w - 90, 3⟩, ⟨BUTTON_SIZE, BUTTON_SIZE⟩⟩ := by
  rw [TopBar.buttonRect, update_button_locations]
  exact rfl

/-- Close button rectangle after `update`. -/
theorem buttonRect2 (bar : TopBar) (ws : Size) :
    (bar.update ws).buttonRect 2 = ⟨⟨ws.w - 68, 3⟩, ⟨BUTTON_SIZE, BUTTON_SIZE⟩⟩ := by
  rw [TopBar.buttonRect, update_button_locations]
  exact rfl

/-- Minimize button rectangle after `update`. -/
theorem buttonRect3 (bar : TopBar) (ws : Size) :
    (bar.update ws).buttonRect 3 = ⟨⟨ws.w - 46, 3⟩, ⟨BUTTON_SIZE, BUTTON_SIZE⟩⟩ := by
  rw [TopBar.buttonRect, update_button_locations]
  exact rfl

/-- Maximize button rectangle after `update`. -/
theorem buttonRect4 (bar : TopBar) (ws : Size) :
    (bar.update ws).buttonRect 4 = ⟨⟨ws.w - 24, 3⟩, ⟨BUTTON_SIZE, BUTTON_SIZE⟩⟩ := by
  rw [TopBar.buttonRect, update_button_locations]
  exact rfl

/-- Screenshot button location after `update`. -/
theorem update_loc0 (bar : TopBar) (ws : Size) :
    (bar.update ws).button_locations 0 = ⟨6, 3⟩ := by
  rw [update_button_locations]
  exact rfl

/-- PresetWidth button location after `update`. -/
theorem update_loc1 (bar : TopBar) (ws : Size) :
    (bar.update ws).button_locations 1 = ⟨ws.w - 90, 3⟩ := by
  rw [update_button_locations]
  exact rfl

/-- Close button location after `update`. -/
theorem update_loc2 (bar : TopBar) (ws : Size) :
    (bar.update ws).button_locations 2 = ⟨ws.w - 68, 3⟩ := by
  rw [update_button_locations]
  exact rfl

/-- Minimize button location after `update`. -/
theorem update_loc3 (bar : TopBar) (ws : Size) :
    (bar.update ws).button_locations 3 = ⟨ws.w - 46, 3⟩ := by
  rw [update_button_locations]
  exact rfl

/-- Maximize button location after `update`. -/
theorem update_loc4 (bar : TopBar) (ws : Size) :
    (bar.update ws).button_locations 4 = ⟨ws.w - 24, 3⟩ := by
  rw [update_button_locations]
  exact rfl

/-- A freshly constructed bar has every button rectangle at the origin. -/
theorem new_buttonRect (i : Fin 5) :
    TopBar.new.buttonRect i = ⟨⟨0, 0⟩, ⟨BUTTON_SIZE, BUTTON_SIZE⟩⟩ := rfl

/-- The index scan of `hit_test` over the five buttons. -/
theorem find?_five (f : Fin 5 → Bool) :
    (List.finRange 5).find? f =
      if f 0 = true then some 0
      else if f 1 = true then some 1
      else if f 2 = true then some 2
      else if f 3 = true then some 3
      else if f 4 = true then some 4
      else none := by
  have h5 : (List.finRange 5) = [0, 1, 2, 3, 4] := rfl
  rw [h5]
  by_cases h0 : f 0 = true <;> by_cases h1 : f 1 = true <;> by_cases h2 : f 2 = true <;>
    by_cases h3 : f 3 = true <;> by_cases h4 : f 4 = true <;>
    simp [List.find?, h0, h1, h2, h3, h4]

/-- Inside the vertical band of the bar, `hit_test` is the first-match scan. -/
theorem hit_test_eq (bar : TopBar) (p : Point) (h0 : 0 ≤ p.y) (h24 : p.y ≤ TOP_BAR_HEIGHT) :
    bar.hit_test p =
      if (bar.buttonRect 0).contains p = true then some 0
      else if (bar.buttonRect 1).contains p = true then some 1
      else if (bar.buttonRect 2).contains p = true then some 2
      else if (bar.buttonRect 3).contains p = true then some 3
      else if (bar.buttonRect 4).contains p = true then some 4
      else none := by
  rw [TopBar.hit_test, if_neg, find?_five]
  push_neg
  exact ⟨by linarith, by linarith⟩

end NiriTopBar

namespace NiriTopBar

/-! ### Claim theorems -/

/-- C1 (amended): after `update`, the PresetWidth button's x-coordinate
equals `Close.x - BUTTON_SPACING - BUTTON_SIZE` for every window size,
and concretely with `window_width = 400` it is `310`. -/
theorem claim_C1 :
    (∀ (bar : TopBar) (ws : Size),
      ((bar.update ws).button_locations BUTTON_PRESET_WIDTH).x =
        ((bar.update ws).button_locations BUTTON_CLOSE).x - BUTTON_SPACING - BUTTON_SIZE) ∧
    ((TopBar.new.update ⟨400, 300⟩).button_locations BUTTON_PRESET_WIDTH).x = 310 := by
  constructor
  · intro bar ws
    simp only [BUTTON_PRESET_WIDTH, BUTTON_CLOSE, update_loc1, update_loc2]
    simp only [BUTTON_SPACING, BUTTON_SIZE]
    ring
  · simp only [BUTTON_PRESET_WIDTH, update_loc1]
    norm_num

/-- C1 counterexample: with `window_width = 400`, the PresetWidth
button's x-coordinate is not `Close.x - BUTTON_SIZE` (it is `310`, while
`Close.x - BUTTON_SIZE = 314`). -/
theorem claim_C1_counterexample :
    ¬(((TopBar.new.update ⟨400, 300⟩).button_locations BUTTON_PRESET_WIDTH).x =
        ((TopBar.new.update ⟨400, 300⟩).button_locations BUTTON_CLOSE).x - BUTTON_SIZE) := by
  simp only [BUTTON_PRESET_WIDTH, BUTTON_CLOSE, update_loc1, update_loc2]
  norm_num [BUTTON_SIZE]

/-- Value of `hit_test` at `(320, 10)` after `update` with width 400:
the point lands in the PresetWidth box `[310, 328) × [3, 21)`. -/
theorem hit_test_400_320 :
    (TopBar.new.update ⟨400, 300⟩).hit_test ⟨320, 10⟩ = some 1 := by
  rw [hit_test_eq _ _ (by norm_num) (by norm_num [TOP_BAR_HEIGHT])]
  have hc0 : ¬(((TopBar.new.update ⟨400, 300⟩).buttonRect 0).contains ⟨320, 10⟩ = true) := by
    rw [buttonRect0, contains_char]
    norm_num
  have hc1 : ((TopBar.new.update ⟨400, 300⟩).buttonRect 1).contains ⟨320, 10⟩ = true := by
    rw [buttonRect1, contains_char]
    norm_num
  rw [if_neg hc0, if_pos hc1]

/-- C2 (amended): after `update` with `window_width = 400`, `hit_test`
at `(320, 10)` returns `Some(PresetWidth)`. -/
theorem claim_C2 :
    (TopBar.new.update ⟨400, 300⟩).hit_test ⟨320, 10⟩ = some BUTTON_PRESET_WIDTH :=
  hit_test_400_320

/-- C2 counterexample: after `update` with `window_width = 400`,
`hit_test` at `(320, 10)` does not return `Some(Close)`. -/
theorem claim_C2_counterexample :
    (TopBar.new.update ⟨400, 300⟩).hit_test ⟨320, 10⟩ ≠ some BUTTON_CLOSE := by
  rw [hit_test_400_320]
  decide

/-- C3: for every window size with nonnegative width, after `update` the
bar size is `(w, 24)`, every button's y-coordinate is `(24 - 18) / 2 = 3`,
`Screenshot.x = EDGE_PADDING`, `Maximize.x = w - EDGE_PADDING - BUTTON_SIZE`,
`Minimize.x = Maximize.x - BUTTON_SPACING - BUTTON_SIZE`, and
`Close.x = Minimize.x - BUTTON_SPACING - BUTTON_SIZE`. -/
theorem claim_C3 (bar : TopBar) (ws : Size) (_hw : 0 ≤ ws.w) :
    (bar.update ws).size = ⟨ws.w, 24⟩ ∧
    (∀ i : Fin 5, ((bar.update ws).button_locations i).y = 3) ∧
    ((bar.update ws).button_locations BUTTON_SCREENSHOT).x = EDGE_PADDING ∧
    ((bar.update ws).button_locations BUTTON_MAXIMIZE).x = ws.w - EDGE_PADDING - BUTTON_SIZE ∧
    ((bar.update ws).button_locations BUTTON_MINIMIZE).x =
      ((bar.update ws).button_locations BUTTON_MAXIMIZE).x - BUTTON_SPACING - BUTTON_SIZE ∧
    ((bar.update ws).button_locations BUTTON_CLOSE).x =
      ((bar.update ws).button_locations BUTTON_MINIMIZE).x - BUTTON_SPACING - BUTTON_SIZE := by
  refine ⟨rfl, ?_, ?_, ?_, ?_, ?_⟩
  · intro i
    rw [update_button_locations]
    fin_cases i <;> exact rfl
  · simp only [BUTTON_SCREENSHOT, update_loc0]
    norm_num [EDGE_PADDING]
  · simp only [BUTTON_MAXIMIZE, update_loc4]
    simp only [EDGE_PADDING, BUTTON_SIZE]
    ring
  · simp only [BUTTON_MINIMIZE, BUTTON_MAXIMIZE, update_loc3, update_loc4]
    simp only [BUTTON_SPACING, BUTTON_SIZE]
    ring
  · simp only [BUTTON_CLOSE, BUTTON_MINIMIZE, update_loc2, update_loc3]
    simp only [BUTTON_SPACING, BUTTON_SIZE]
    ring

/-- C3 witness: the layout at `window_width = 400`. -/
theorem claim_C3_witness :
    (0 : ℚ) ≤ ((⟨400, 300⟩ : Size)).w ∧
    ((TopBar.new.update ⟨400, 300⟩).size = ⟨((⟨400, 300⟩ : Size)).w, 24⟩ ∧
     (∀ i : Fin 5, ((TopBar.new.update ⟨400, 300⟩).button_locations i).y = 3) ∧
     ((TopBar.new.update ⟨400, 300⟩).button_locations BUTTON_SCREENSHOT).x = EDGE_PADDING ∧
     ((TopBar.new.update ⟨400, 300⟩).button_locations BUTTON_MAXIMIZE).x =
       ((⟨400, 300⟩ : Size)).w - EDGE_PADDING - BUTTON_SIZE ∧
     ((TopBar.new.update ⟨400, 300⟩).button_locations BUTTON_MINIMIZE).x =
       ((TopBar.new.update ⟨400, 300⟩).button_locations BUTTON_MAXIMIZE).x - BUTTON_SPACING - BUTTON_SIZE ∧
     ((TopBar.new.update ⟨400, 300⟩).button_locations BUTTON_CLOSE).x =
       ((TopBar.new.update ⟨400, 300⟩).button_locations BUTTON_MINIMIZE).x - BUTTON_SPACING - BUTTON_SIZE) :=
  ⟨by norm_num, claim_C3 TopBar.new ⟨400, 300⟩ (by norm_num)⟩

/-- C4: for every origin, `render` after an `update` yields exactly 6
primitives: the background first, positioned at the origin with the
cached bar size and opacity 1, then one primitive per button in
construction order, each at `origin + cached location` with the fixed
button size, that button's color, and opacity 1. -/
theorem claim_C4 (bar : TopBar) (ws : Size) (origin : Point) :
    ((bar.update ws).render origin).length = 6 ∧
    ((bar.update ws).render origin).head? =
      some ⟨origin, (bar.update ws).size, background_color, 1⟩ ∧
    (∀ i : Fin 5, ((bar.update ws).render origin).get? (1 + (i : ℕ)) =
      some ⟨origin + (bar.update ws).button_locations i,
            ⟨BUTTON_SIZE, BUTTON_SIZE⟩, button_color_table i, 1⟩) := by
  refine ⟨rfl, rfl, ?_⟩
  intro i
  fin_cases i <;> exact rfl

/-- C5: `hit_test` returns `none` for every point whose y-coordinate is
below 0 or above 24, regardless of its x-coordinate. -/
theorem claim_C5 (bar : TopBar) (p : Point) (h : p.y < 0 ∨ p.y > 24) :
    bar.hit_test p = none := by
  rw [TopBar.hit_test, if_pos]
  exact h

/-- C5 witness: a point above the bar and far to the right of any
reasonable width is rejected. -/
theorem claim_C5_witness :
    ((30 : ℚ) < 0 ∨ (30 : ℚ) > 24) ∧ TopBar.hit_test TopBar.new ⟨1000, 30⟩ = none :=
  ⟨Or.inr (by norm_num), claim_C5 TopBar.new ⟨1000, 30⟩ (Or.inr (by norm_num))⟩

end NiriTopBar

namespace NiriTopBar

/-- Hit at the center of the Screenshot button (width at least 114). -/
theorem hit_center0 (bar : TopBar) (ws : Size) (_hw : 114 ≤ ws.w) :
    (bar.update ws).hit_test
      ((bar.update ws).button_locations 0 + ⟨BUTTON_SIZE / 2, BUTTON_SIZE / 2⟩) = some 0 := by
  have hc : ((bar.update ws).button_locations 0 + (⟨BUTTON_SIZE / 2, BUTTON_SIZE / 2⟩ : Point))
      = ⟨15, 12⟩ := by
    rw [update_loc0, Point.add_def]
    norm_num [BUTTON_SIZE]
  rw [hc, hit_test_eq _ _ (by norm_num) (by norm_num [TOP_BAR_HEIGHT])]
  have h0 : ((bar.update ws).buttonRect 0).contains ⟨15, 12⟩ = true := by
    rw [buttonRect0, contains_char_at]
    norm_num
  rw [if_pos h0]

/-- Hit at the center of the PresetWidth button (width at least 114). -/
theorem hit_center1 (bar : TopBar) (ws : Size) (hw : 114 ≤ ws.w) :
    (bar.update ws).hit_test
      ((bar.update ws).button_locations 1 + ⟨BUTTON_SIZE / 2, BUTTON_SIZE / 2⟩) = some 1 := by
  have hc : ((bar.update ws).button_locations 1 + (⟨BUTTON_SIZE / 2, BUTTON_SIZE / 2⟩ : Point))
      = ⟨ws.w - 81, 12⟩ := by
    rw [update_loc1, Point.add_def]
    norm_num [BUTTON_SIZE]
    ring
  rw [hc, hit_test_eq _ _ (by norm_num) (by norm_num [TOP_BAR_HEIGHT])]
  have h0 : ¬(((bar.update ws).buttonRect 0).contains ⟨ws.w - 81, 12⟩ = true) := by
    rw [buttonRect0, contains_char_at]
    rintro ⟨-, h, -⟩
    norm_num at h
    linarith
  have h1 : ((bar.update ws).buttonRect 1).contains ⟨ws.w - 81, 12⟩ = true := by
    rw [buttonRect1, contains_char_at]
    refine ⟨by linarith, by linarith, by norm_num, by norm_num⟩
  rw [if_neg h0, if_pos h1]

/-- Hit at the center of the Close button (width at least 114). -/
theorem hit_center2 (bar : TopBar) (ws : Size) (hw : 114 ≤ ws.w) :
    (bar.update ws).hit_test
      ((bar.update ws).button_locations 2 + ⟨BUTTON_SIZE / 2, BUTTON_SIZE / 2⟩) = some 2 := by
  have hc : ((bar.update ws).button_locations 2 + (⟨BUTTON_SIZE / 2, BUTTON_SIZE / 2⟩ : Point))
      = ⟨ws.w - 59, 12⟩ := by
    rw [update_loc2, Point.add_def]
    norm_num [BUTTON_SIZE]
    ring
  rw [hc, hit_test_eq _ _ (by norm_num) (by norm_num [TOP_BAR_HEIGHT])]
  have h0 : ¬(((bar.update ws).buttonRect 0).contains ⟨ws.w - 59, 12⟩ = true) := by
    rw [buttonRect0, contains_char_at]
    rintro ⟨-, h, -⟩
    norm_num at h
    linarith
  have h1 : ¬(((bar.update ws).buttonRect 1).contains ⟨ws.w - 59, 12⟩ = true) := by
    rw [buttonRect1, contains_char_at]
    rintro ⟨-, h, -⟩
    linarith
  have h2 : ((bar.update ws).buttonRect 2).contains ⟨ws.w - 59, 12⟩ = true := by
    rw [buttonRect2, contains_char_at]
    refine ⟨by linarith, by linarith, by norm_num, by norm_num⟩
  rw [if_neg h0, if_neg h1, if_pos h2]

/-- Hit at the center of the Minimize button (width at least 114). -/
theorem hit_center3 (bar : TopBar) (ws : Size) (hw : 114 ≤ ws.w) :
    (bar.update ws).hit_test
      ((bar.update ws).button_locations 3 + ⟨BUTTON_SIZE / 2, BUTTON_SIZE / 2⟩) = some 3 := by
  have hc : ((bar.update ws).button_locations 3 + (⟨BUTTON_SIZE / 2, BUTTON_SIZE / 2⟩ : Point))
      = ⟨ws.w - 37, 12⟩ := by
    rw [update_loc3, Point.add_def]
    norm_num [BUTTON_SIZE]
    ring
  rw [hc, hit_test_eq _ _ (by norm_num) (by norm_num [TOP_BAR_HEIGHT])]
  have h0 : ¬(((bar.update ws).buttonRect 0).contains ⟨ws.w - 37, 12⟩ = true) := by
    rw [buttonRect0, contains_char_at]
    rintro ⟨-, h, -⟩
    norm_num at h
    linarith
  have h1 : ¬(((bar.update ws).buttonRect 1).contains ⟨ws.w - 37, 12⟩ = true) := by
    rw [buttonRect1, contains_char_at]
    rintro ⟨-, h, -⟩
    linarith
  have h2 : ¬(((bar.update ws).buttonRect 2).contains ⟨ws.w - 37, 12⟩ = true) := by
    rw [buttonRect2, contains_char_at]
    rintro ⟨-, h, -⟩
    linarith
  have h3 : ((bar.update ws).buttonRect 3).contains ⟨ws.w - 37, 12⟩ = true := by
    rw [buttonRect3, contains_char_at]
    refine ⟨by linarith, by linarith, by norm_num, by norm_num⟩
  rw [if_neg h0, if_neg h1, if_neg h2, if_pos h3]

/-- Hit at the center of the Maximize button (width at least 114). -/
theorem hit_center4 (bar : TopBar) (ws : Size) (hw : 114 ≤ ws.w) :
    (bar.update ws).hit_test
      ((bar.update ws).button_locations 4 + ⟨BUTTON_SIZE / 2, BUTTON_SIZE / 2⟩) = some 4 := by
  have hc : ((bar.update ws).button_locations 4 + (⟨BUTTON_SIZE / 2, BUTTON_SIZE / 2⟩ : Point))
      = ⟨ws.w - 15, 12⟩ := by
    rw [update_loc4, Point.add_def]
    norm_num [BUTTON_SIZE]
    ring
  rw [hc, hit_test_eq _ _ (by norm_num) (by norm_num [TOP_BAR_HEIGHT])]
  have h0 : ¬(((bar.update ws).buttonRect 0).contains ⟨ws.w - 15, 12⟩ = true) := by
    rw [buttonRect0, contains_char_at]
    rintro ⟨-, h, -⟩
    norm_num at h
    linarith
  have h1 : ¬(((bar.update ws).buttonRect 1).contains ⟨ws.w - 15, 12⟩ = true) := by
    rw [buttonRect1, contains_char_at]
    rintro ⟨-, h, -⟩
    linarith
  have h2 : ¬(((bar.update ws).buttonRect 2).contains ⟨ws.w - 15, 12⟩ = true) := by
    rw [buttonRect2, contains_char_at]
    rintro ⟨-, h, -⟩
    linarith
  have h3 : ¬(((bar.update ws).buttonRect 3).contains ⟨ws.w - 15, 12⟩ = true) := by
    rw [buttonRect3, contains_char_at]
    rintro ⟨-, h, -⟩
    linarith
  have h4 : ((bar.update ws).buttonRect 4).contains ⟨ws.w - 15, 12⟩ = true := by
    rw [buttonRect4, contains_char_at]
    refine ⟨by linarith, by linarith, by norm_num, by norm_num⟩
  rw [if_neg h0, if_neg h1, if_neg h2, if_neg h3, if_pos h4]

/-- Pairwise disjointness of the five button rectangles (width at least 114). -/
theorem rects_pairwise_disjoint (bar : TopBar) (ws : Size) (hw : 114 ≤ ws.w) :
    ∀ i j : Fin 5, i ≠ j → ∀ p : Point,
      ¬(((bar.update ws).buttonRect i).contains p = true ∧
        ((bar.update ws).buttonRect j).contains p = true) := by
  intro i j hij p hc
  obtain ⟨hi, hj⟩ := hc
  fin_cases i <;> fin_cases j <;>
    first
      | exact hij rfl
      | exact contains_disjoint _ _ _ _ p
          (by simp only [EDGE_PADDING, BUTTON_SIZE, BUTTON_SPACING]; linarith) hi hj
      | exact contains_disjoint _ _ _ _ p
          (by simp only [EDGE_PADDING, BUTTON_SIZE, BUTTON_SPACING]; linarith) hj hi

/-- C6: when the window is wide enough to fit all five buttons with
their paddings and spacings (no overlap), the five button bounding boxes
are pairwise disjoint and `hit_test` at the exact center of each
button's bounding box returns that button's index. -/
theorem claim_C6 (bar : TopBar) (ws : Size)
    (hw : EDGE_PADDING + BUTTON_SIZE + BUTTON_SIZE + BUTTON_SPACING + BUTTON_SIZE +
            BUTTON_SPACING + BUTTON_SIZE + BUTTON_SPACING + BUTTON_SIZE + EDGE_PADDING ≤ ws.w) :
    (∀ i j : Fin 5, i ≠ j → ∀ p : Point,
      ¬(((bar.update ws).buttonRect i).contains p = true ∧
        ((bar.update ws).buttonRect j).contains p = true)) ∧
    (∀ i : Fin 5,
      (bar.update ws).hit_test
        ((bar.update ws).button_locations i + ⟨BUTTON_SIZE / 2, BUTTON_SIZE / 2⟩) = some i) := by
  have hw' : 114 ≤ ws.w := by
    simp only [EDGE_PADDING, BUTTON_SIZE, BUTTON_SPACING] at hw
    linarith
  refine ⟨rects_pairwise_disjoint bar ws hw', ?_⟩
  intro i
  fin_cases i
  · exact hit_center0 bar ws hw'
  · exact hit_center1 bar ws hw'
  · exact hit_center2 bar ws hw'
  · exact hit_center3 bar ws hw'
  · exact hit_center4 bar ws hw'

/-- C6 witness: the property at `window_width = 400`. -/
theorem claim_C6_witness :
    (EDGE_PADDING + BUTTON_SIZE + BUTTON_SIZE + BUTTON_SPACING + BUTTON_SIZE +
       BUTTON_SPACING + BUTTON_SIZE + BUTTON_SPACING + BUTTON_SIZE + EDGE_PADDING ≤
       ((⟨400, 300⟩ : Size)).w) ∧
    (∀ i j : Fin 5, i ≠ j → ∀ p : Point,
      ¬(((TopBar.new.update ⟨400, 300⟩).buttonRect i).contains p = true ∧
        ((TopBar.new.update ⟨400, 300⟩).buttonRect j).contains p = true)) ∧
    (∀ i : Fin 5,
      (TopBar.new.update ⟨400, 300⟩).hit_test
        ((TopBar.new.update ⟨400, 300⟩).button_locations i +
          ⟨BUTTON_SIZE / 2, BUTTON_SIZE / 2⟩) = some i) :=
  ⟨by norm_num [EDGE_PADDING, BUTTON_SIZE, BUTTON_SPACING],
   (claim_C6 TopBar.new ⟨400, 300⟩
      (by norm_num [EDGE_PADDING, BUTTON_SIZE, BUTTON_SPACING])).1,
   (claim_C6 TopBar.new ⟨400, 300⟩
      (by norm_num [EDGE_PADDING, BUTTON_SIZE, BUTTON_SPACING])).2⟩

end NiriTopBar

namespace NiriTopBar

/-- C7: `update` overwrites the whole geometry and buffer state: a
second `update` erases the first entirely (composition collapses to the
last call), `update` is idempotent, and the size, button locations,
background buffer, and button buffers after `update` do not depend on
the prior state — they are pure functions of the window size and the
layout constants. -/
theorem claim_C7 (bar : TopBar) (w1 w2 : Size) :
    (bar.update w1).update w2 = bar.update w2 ∧
    (bar.update w2).update w2 = bar.update w2 ∧
    (∀ bar2 : TopBar,
      (bar.update w2).size = (bar2.update w2).size ∧
      (bar.update w2).button_locations = (bar2.update w2).button_locations ∧
      (bar.update w2).background_buffer = (bar2.update w2).background_buffer ∧
      (bar.update w2).button_buffers = (bar2.update w2).button_buffers) :=
  ⟨rfl, rfl, fun _ => ⟨rfl, rfl, rfl, rfl⟩⟩

/-- C8: `update` performs no clamping and cannot fail: for every window
size — including widths far too small for the layout to fit — the five
stored locations are exactly the raw arithmetic results.  Concretely at
`window_width = 0` the PresetWidth button is stored at the negative
x-coordinate `-90`, and `render` and `hit_test` still operate on the
resulting degenerate geometry (`render` emits its 6 primitives and
`hit_test` still reports the overlap-resolved button). -/
theorem claim_C8 (bar : TopBar) (ws : Size) :
    (bar.update ws).button_locations =
      ![⟨6, 3⟩, ⟨ws.w - 90, 3⟩, ⟨ws.w - 68, 3⟩, ⟨ws.w - 46, 3⟩, ⟨ws.w - 24, 3⟩] ∧
    ((TopBar.new.update ⟨0, 0⟩).button_locations BUTTON_PRESET_WIDTH).x = -90 ∧
    ((TopBar.new.update ⟨0, 0⟩).render ⟨0, 0⟩).length = 6 ∧
    (TopBar.new.update ⟨0, 0⟩).hit_test ⟨-85, 12⟩ = some BUTTON_PRESET_WIDTH := by
  refine ⟨update_button_locations bar ws, ?_, rfl, ?_⟩
  · simp only [BUTTON_PRESET_WIDTH, update_loc1]
    norm_num
  · rw [hit_test_eq _ _ (by norm_num) (by norm_num [TOP_BAR_HEIGHT])]
    have hc0 : ¬(((TopBar.new.update ⟨0, 0⟩).buttonRect 0).contains ⟨-85, 12⟩ = true) := by
      rw [buttonRect0, contains_char]
      norm_num
    have hc1 : ((TopBar.new.update ⟨0, 0⟩).buttonRect 1).contains ⟨-85, 12⟩ = true := by
      rw [buttonRect1, contains_char]
      norm_num
    rw [if_neg hc0, if_pos hc1]
    exact rfl

/-- C9: `update` reads only the width component of its size argument:
two sizes with equal widths and arbitrary heights produce identical
`TopBar` states, hence identical `hit_test` and `render` behaviour. -/
theorem claim_C9 (bar : TopBar) (s1 s2 : Size) (h : s1.w = s2.w) :
    bar.update s1 = bar.update s2 ∧
    (∀ p : Point, (bar.update s1).hit_test p = (bar.update s2).hit_test p) ∧
    (∀ origin : Point, (bar.update s1).render origin = (bar.update s2).render origin) := by
  have he : bar.update s1 = bar.update s2 := by
    rw [update_def, update_def, h]
  exact ⟨he, fun p => by rw [he], fun origin => by rw [he]⟩

/-- C9 witness: widths equal, heights different. -/
theorem claim_C9_witness :
    ((⟨400, 100⟩ : Size)).w = ((⟨400, 200⟩ : Size)).w ∧
    (TopBar.new.update ⟨400, 100⟩ = TopBar.new.update ⟨400, 200⟩ ∧
     (∀ p : Point, (TopBar.new.update ⟨400, 100⟩).hit_test p =
        (TopBar.new.update ⟨400, 200⟩).hit_test p) ∧
     (∀ origin : Point, (TopBar.new.update ⟨400, 100⟩).render origin =
        (TopBar.new.update ⟨400, 200⟩).render origin)) :=
  ⟨rfl, claim_C9 TopBar.new ⟨400, 100⟩ ⟨400, 200⟩ rfl⟩

/-- C10: on a freshly constructed `TopBar`, all five button locations
and the bar size are `(0, 0)`; every point strictly inside the square
`[0, 18] × [0, 18]` lies in all five coinciding button boxes, and
`hit_test` on such a point returns `Some(Screenshot)` (index 0), the
ascending scan resolving the total overlap. -/
theorem claim_C10 (p : Point) (h1 : 0 < p.x) (h2 : p.x < 18) (h3 : 0 < p.y) (h4 : p.y < 18) :
    (∀ i : Fin 5, TopBar.new.button_locations i = ⟨0, 0⟩) ∧
    TopBar.new.size = ⟨0, 0⟩ ∧
    (∀ i : Fin 5, (TopBar.new.buttonRect i).contains p = true) ∧
    TopBar.new.hit_test p = some BUTTON_SCREENSHOT := by
  have hcont : ∀ i : Fin 5, (TopBar.new.buttonRect i).contains p = true := by
    intro i
    rw [new_buttonRect, contains_char]
    exact ⟨le_of_lt h1, by linarith, le_of_lt h3, by linarith⟩
  refine ⟨fun i => rfl, rfl, hcont, ?_⟩
  rw [hit_test_eq _ _ (by linarith) (by simp only [TOP_BAR_HEIGHT]; linarith),
    if_pos (hcont 0)]
  exact rfl

/-- C10 witness: the point `(9, 9)`, strictly inside the coinciding boxes. -/
theorem claim_C10_witness :
    ((0 : ℚ) < 9 ∧ (9 : ℚ) < 18 ∧ (0 : ℚ) < 9 ∧ (9 : ℚ) < 18) ∧
    ((∀ i : Fin 5, TopBar.new.button_locations i = ⟨0, 0⟩) ∧
     TopBar.new.size = ⟨0, 0⟩ ∧
     (∀ i : Fin 5, (TopBar.new.buttonRect i).contains ⟨9, 9⟩ = true) ∧
     TopBar.new.hit_test ⟨9, 9⟩ = some BUTTON_SCREENSHOT) :=
  ⟨⟨by norm_num, by norm_num, by norm_num, by norm_num⟩,
   claim_C10 ⟨9, 9⟩ (by norm_num) (by norm_num) (by norm_num) (by norm_num)⟩

end NiriTopBar
